import Mathlib

/-!
Verification of the snippetbox core: the MySQL data-access object
(pkg/models/mysql/snippets.go) and the HTTP handlers (cmd/web/handlers.go,
plus the two earlier handler variants shipped as unnamed source parts).
Timestamps are modelled as natural numbers counting UTC seconds; one day is
86400 seconds. Go error values are compared by identity, so they are modelled
as an inductive type with one constructor per distinct error value family.
-/

namespace Snippetbox

/-- The Snippet entity of pkg/models (fields ID, Title, Content, Created,
Expires). The models package itself is not under src; its shape is fixed by
the five columns scanned in SnippetModel.Get and by spec section 3. -/
structure Snippet where
  ID : Int
  Title : String
  Content : String
  Created : Nat
  Expires : Nat
deriving DecidableEq, Repr

/-- Go error values relevant to the DAO boundary, compared by identity as in
Go. `sqlErrNoRows` is database/sql.ErrNoRows, the storage engine layer native
no-rows sentinel. `driverErr code` stands for every other storage-engine /
driver error value (MySQL error codes). `errNoRecord` is models.ErrNoRecord,
the storage-agnostic sentinel defined by the application. -/
inductive GoError where
  | sqlErrNoRows
  | driverErr (code : Nat)
  | errNoRecord
deriving DecidableEq, Repr

/-- Whether an error value originates in the storage engine layer
(database/sql or the MySQL driver) rather than in the application's models
package. -/
def GoError.engineNative : GoError → Bool
  | .sqlErrNoRows => true
  | .driverErr _ => true
  | .errNoRecord => false

/-- One row of the snippets table (columns id, title, content, created,
expires as in the persisted schema of spec section 6). -/
structure Row where
  id : Int
  title : String
  content : String
  created : Nat
  expires : Nat
deriving DecidableEq, Repr

/-- The state of the storage backend behind the sql.DB pool: either healthy,
holding the table rows, the current UTC clock and the next auto-increment id,
or failing every statement with a driver error of the given code. -/
inductive Storage where
  | healthy (rows : List Row) (now : Nat) (nextId : Int)
  | failing (code : Nat)
deriving DecidableEq, Repr

/-- A parameter value passed to the placeholder mechanism of database/sql. -/
inductive SQLParam where
  | str (s : String)
  | int (i : Int)
deriving DecidableEq, Repr

/-- A statement submission to the database: the SQL text together with the
positional placeholder parameters, exactly as handed to DB.Exec / DB.QueryRow. -/
structure SQLSubmission where
  text : String
  params : List SQLParam
deriving DecidableEq, Repr

/-- The SQL text of SnippetModel.Insert, verbatim from the Go source literal. -/
def insertStmt : String :=
  "INSERT INTO snippets (title, content, created, expires)\n\t\t\t  VALUES(?, ?, UTC_TIMESTAMP(), DATE_ADD(UTC_TIMESTAMP(), INTERVAL ? DAY))"

/-- The SQL text of SnippetModel.Get, verbatim from the Go source literal. -/
def getStmt : String :=
  "SELECT id, title, content, created, expires FROM snippets\n\tWHERE expires > UTC_TIMESTAMP() AND id = ?"

/-- The submission SnippetModel.Insert hands to DB.Exec: the fixed statement
text and the three caller values as positional placeholder parameters
(m.DB.Exec(stmt, title, content, expires)). -/
def insertSubmission (title content expires : String) : SQLSubmission :=
  { text := insertStmt, params := [.str title, .str content, .str expires] }

/-- The submission SnippetModel.Get hands to DB.QueryRow: the fixed statement
text and the id as the one positional placeholder parameter
(m.DB.QueryRow(stmt, id)). -/
def getSubmission (id : Int) : SQLSubmission :=
  { text := getStmt, params := [.int id] }

/-- MySQL coercion of the string placeholder in INTERVAL ? DAY to a day
count: a nonempty all-digit string denotes that number of days; anything else
is rejected by the engine. -/
def mysqlIntervalDays (s : String) : Option Nat :=
  if s.data ≠ [] ∧ s.data.all Char.isDigit then
    some (s.data.foldl (fun a c => a * 10 + (c.toNat - 48)) 0)
  else
    none

/-- SnippetModel.Insert: executes insertStmt through DB.Exec. On a healthy
backend the engine appends one row with created = UTC_TIMESTAMP() and
expires = DATE_ADD(UTC_TIMESTAMP(), INTERVAL expires DAY), and LastInsertId
returns the newly assigned id; any Exec failure is returned as-is
(return 0, err in the Go source). -/
def SnippetModel.Insert (st : Storage) (title content expires : String) :
    Except GoError (Int × Storage) :=
  match st with
  | .failing code => .error (.driverErr code)
  | .healthy rows now nextId =>
    match mysqlIntervalDays expires with
    | none => .error (.driverErr 1292)
    | some days =>
      let row : Row :=
        { id := nextId, title := title, content := content,
          created := now, expires := now + days * 86400 }
      .ok (nextId, .healthy (rows ++ [row]) now (nextId + 1))

/-- The WHERE clause of getStmt: expires > UTC_TIMESTAMP() AND id = ?. -/
def getWhere (now : Nat) (id : Int) (r : Row) : Bool :=
  decide (now < r.expires) && decide (r.id = id)

/-- row.Scan after DB.QueryRow(getStmt, id): on a healthy backend it yields
the matching live row, or database/sql.ErrNoRows when the query returns no
row; on a failing backend it yields the deferred driver error. -/
def rowScan (st : Storage) (id : Int) : Except GoError Row :=
  match st with
  | .failing code => .error (.driverErr code)
  | .healthy rows now _ =>
    match (rows.filter (getWhere now id)).head? with
    | some r => .ok r
    | none => .error .sqlErrNoRows

/-- SnippetModel.Get: runs rowScan, then translates exactly as the Go source
does: err == sql.ErrNoRows becomes models.ErrNoRecord, any other error is
returned unmodified, and a scanned row becomes the Snippet. -/
def SnippetModel.Get (st : Storage) (id : Int) : Except GoError Snippet :=
  match rowScan st id with
  | .error e =>
    if e = GoError.sqlErrNoRows then .error GoError.errNoRecord else .error e
  | .ok r =>
    .ok { ID := r.id, Title := r.title, Content := r.content,
          Created := r.created, Expires := r.expires }

/-- SnippetModel.Latest: the Go source body is exactly "return nil, nil"
regardless of the receiver and the backend. -/
def SnippetModel.Latest (_st : Storage) : Except GoError (List Snippet) :=
  .ok []

/-! ## HTTP layer -/

/-- The observable state of a net/http ResponseWriter: the emitted status
code (none until one is committed), the response headers, and the body bytes
written so far. -/
structure ResponseWriter where
  status : Option Nat
  headers : List (String × String)
  body : String
deriving DecidableEq, Repr

/-- A fresh response writer, before the handler runs. -/
def ResponseWriter.empty : ResponseWriter :=
  { status := none, headers := [], body := "" }

/-- Header().Set(k, v): replaces any existing values for the key. -/
def ResponseWriter.setHeader (w : ResponseWriter) (k v : String) : ResponseWriter :=
  { w with headers := (w.headers.filter (fun p => p.1 ≠ k)) ++ [(k, v)] }

/-- Reads back a response header value. -/
def ResponseWriter.getHeader (w : ResponseWriter) (k : String) : Option String :=
  ((w.headers.filter (fun p => p.1 == k)).head?).map (fun p => p.2)

/-- WriteHeader(code): the first call fixes the status; later calls are
ignored (the net/http ordering contract restated in spec section 4.3). -/
def ResponseWriter.writeHeader (w : ResponseWriter) (code : Nat) : ResponseWriter :=
  match w.status with
  | none => { w with status := some code }
  | some _ => w

/-- Write(bytes): a body write before any explicit status commits 200, then
the bytes are appended to the body. -/
def ResponseWriter.write (w : ResponseWriter) (s : String) : ResponseWriter :=
  let w2 := w.writeHeader 200
  { w2 with body := w2.body ++ s }

/-- The request data the handlers look at: method, URL path, the value of the
id query parameter as returned by r.URL.Query().Get("id") — the empty string
when the parameter is missing — and the request payload, which none of these
handlers read. -/
structure Request where
  method : String
  path : String
  queryId : String
  payload : String
deriving DecidableEq, Repr

/-- strconv.Atoi: optional sign, then at least one decimal digit, rejecting
anything else and values outside the signed 64-bit range (Go returns a
non-nil error in all of those cases, which is all the handlers test). -/
def Atoi (s : String) : Option Int :=
  let core : Bool → List Char → Option Int := fun neg ds =>
    if ds ≠ [] ∧ ds.all Char.isDigit then
      let n : Nat := ds.foldl (fun a c => a * 10 + (c.toNat - 48)) 0
      if neg then
        if n ≤ 2 ^ 63 then some (-(n : Int)) else none
      else
        if n < 2 ^ 63 then some (n : Int) else none
    else none
  match s.data with
  | '-' :: rest => core true rest
  | '+' :: rest => core false rest
  | l => core false l

/-- http.StatusText for the codes this application emits. -/
def statusText (code : Nat) : String :=
  if code = 404 then "Not Found"
  else if code = 405 then "Method Not Allowed"
  else if code = 500 then "Internal Server Error"
  else ""

/-- Modelled from the spec: the application clientError helper (its file,
cmd/web/helpers.go, is not under src; learnings.md only shows notFound
delegating to it). Spec sections 4.3 and 7: a client input error is surfaced
immediately as the given 4xx response; following http.Error it writes the
status code and then the status text as the body. -/
def application.clientError (w : ResponseWriter) (code : Nat) : ResponseWriter :=
  (w.writeHeader code).write (statusText code)

/-- Modelled from the spec: the application notFound helper — a not-found
(404) response; learnings.md shows it as clientError(http.StatusNotFound). -/
def application.notFound (w : ResponseWriter) : ResponseWriter :=
  application.clientError w 404

/-- Modelled from the spec: the application serverError helper (its file is
not under src). Spec section 7: a storage/infrastructure error is logged
server-side and surfaced to the client as an opaque 500. -/
def application.serverError (w : ResponseWriter) : ResponseWriter :=
  (w.writeHeader 500).write (statusText 500)

/-- fmt.Fprintf(w, "%v", s) on a *models.Snippet: the Go default rendering of
a pointed-to struct, ampersand then the fields between braces. -/
def formatSnippet (s : Snippet) : String :=
  "&\x7b" ++ toString s.ID ++ " " ++ s.Title ++ " " ++ s.Content ++ " " ++
    toString s.Created ++ " " ++ toString s.Expires ++ "\x7d"

/-- http.Redirect for a non-GET request: sets the Location header and writes
the status code (the html body is only added for GET requests). -/
def httpRedirect (w : ResponseWriter) (url : String) (code : Nat) : ResponseWriter :=
  (w.setHeader "Location" url).writeHeader code

/-- The showSnippet handler of cmd/web/handlers.go. Returns the response
writer after the handler ran, paired with the list of ids passed to
SnippetModel.Get (so that not consulting the DAO is observable). -/
def showSnippet (st : Storage) (r : Request) (w : ResponseWriter) :
    ResponseWriter × List Int :=
  match Atoi r.queryId with
  | none => (application.notFound w, [])
  | some id =>
    if id < 1 then (application.notFound w, [])
    else
      match SnippetModel.Get st id with
      | .error e =>
        if e = GoError.errNoRecord then (application.notFound w, [id])
        else (application.serverError w, [id])
      | .ok s => (w.write (formatSnippet s), [id])

/-- The dummy content string of createSnippet, verbatim from the source. -/
def haiku : String :=
  "O snail\nClimb Mount Fuji,\nBut slowly, slowly!\n\n– Kobayashi Issa"

/-- The createSnippet handler of cmd/web/handlers.go. Returns the response
writer, the storage state after the handler ran, and the list of
(title, content, expires) argument triples passed to SnippetModel.Insert. -/
def createSnippet (st : Storage) (r : Request) (w : ResponseWriter) :
    ResponseWriter × Storage × List (String × String × String) :=
  if r.method ≠ "POST" then
    (application.clientError (w.setHeader "Allow" "POST") 405, st, [])
  else
    let title := "O snail"
    let content := haiku
    let expires := "7"
    match SnippetModel.Insert st title content expires with
    | .error _ => (application.serverError w, st, [(title, content, expires)])
    | .ok (id, st2) =>
      (httpRedirect w ("/snippet?id=" ++ toString id) 303, st2, [(title, content, expires)])

/-- The createSnippet variant of src/unnamed/part_000: on a non-POST method
it sets Allow, writes 405 and the body "Method Not Allowed" and returns;
otherwise it writes the placeholder body. It never touches the DAO. -/
def createSnippet_part000 (r : Request) (w : ResponseWriter) : ResponseWriter :=
  if r.method ≠ "POST" then
    (((w.setHeader "Allow" "POST").writeHeader 405).write "Method Not Allowed")
  else
    w.write "Create a new snippet..."

/-- The createSnippet variant of src/unnamed/part_001: the return after the
405 client error is commented out in the source, so after a non-POST method
the handler falls through and still writes the placeholder body. -/
def createSnippet_part001 (r : Request) (w : ResponseWriter) : ResponseWriter :=
  let w2 :=
    if r.method ≠ "POST" then
      application.clientError (w.setHeader "Allow" "POST") 405
    else w
  w2.write "Create a new snippet..."

/-! ## Theorems -/

/-- Helper: whatever the backend does, SnippetModel.Get never surfaces the
storage-layer sqlErrNoRows value, because the translation branch of the Go
source catches it first. -/
theorem get_never_sqlErrNoRows (st : Storage) (id : Int) :
    SnippetModel.Get st id ≠ Except.error GoError.sqlErrNoRows := by
  cases h : rowScan st id with
  | ok r => simp [SnippetModel.Get, h]
  | error e =>
    by_cases he : e = GoError.sqlErrNoRows
    · simp [SnippetModel.Get, h, he]
    · simp [SnippetModel.Get, h, he]

/-- Helper: the only error values SnippetModel.Insert can produce are driver
errors, never sqlErrNoRows and never errNoRecord. -/
theorem insert_error_is_driverErr (st : Storage) (t c e : String) (err : GoError)
    (h : SnippetModel.Insert st t c e = Except.error err) :
    ∃ code, err = GoError.driverErr code := by
  cases st with
  | failing code =>
    simp [SnippetModel.Insert] at h
    exact ⟨code, h.symm⟩
  | healthy rows now nextId =>
    cases hd : mysqlIntervalDays e with
    | none =>
      simp [SnippetModel.Insert, hd] at h
      exact ⟨1292, h.symm⟩
    | some days => simp [SnippetModel.Insert, hd] at h

/-- C7: SnippetModel.Latest returns the empty sequence of snippets and no
error for every storage state, not the 10 most recent live snippets. -/
theorem latest_unconditionally_empty (st : Storage) :
    SnippetModel.Latest st = Except.ok ([] : List Snippet) := rfl

/-- C8: the SQL text each DAO operation submits is a fixed constant,
character-for-character identical across any two calls and independent of the
caller-supplied values, which travel only as positional placeholder
parameters. -/
theorem dao_sql_text_constant (t c e t2 c2 e2 : String) (i i2 : Int) :
    (insertSubmission t c e).text = (insertSubmission t2 c2 e2).text ∧
    (getSubmission i).text = (getSubmission i2).text ∧
    (insertSubmission t c e).text = insertStmt ∧
    (insertSubmission t c e).params = [SQLParam.str t, SQLParam.str c, SQLParam.str e] ∧
    (getSubmission i).text = getStmt ∧
    (getSubmission i).params = [SQLParam.int i] :=
  ⟨rfl, rfl, rfl, rfl, rfl, rfl⟩

/-- C3 counterexample: the DAO does return a storage-engine-native error
value to its caller. With the backend failing with MySQL error 1045, both
Insert and Get return that driver-native error value itself, not ErrNoRecord
and not an engine-agnostic wrapper. -/
theorem dao_engine_native_error_escapes :
    SnippetModel.Insert (Storage.failing 1045) "a" "b" "7" =
      Except.error (GoError.driverErr 1045) ∧
    SnippetModel.Get (Storage.failing 1045) 1 = Except.error (GoError.driverErr 1045) ∧
    (GoError.driverErr 1045).engineNative = true :=
  ⟨rfl, rfl, rfl⟩

/-- C3 amended: the DAO never surfaces the storage engine native no-rows
value (Get translates it to ErrNoRecord, and Insert never produces it or
ErrNoRecord); every other storage failure is passed through to the caller
unmodified rather than wrapped. -/
theorem dao_error_translation (st : Storage) (id : Int) (t c e : String) :
    SnippetModel.Get st id ≠ Except.error GoError.sqlErrNoRows ∧
    SnippetModel.Insert st t c e ≠ Except.error GoError.sqlErrNoRows ∧
    SnippetModel.Insert st t c e ≠ Except.error GoError.errNoRecord ∧
    (∀ code, st = Storage.failing code →
      SnippetModel.Get st id = Except.error (GoError.driverErr code) ∧
      SnippetModel.Insert st t c e = Except.error (GoError.driverErr code)) := by
  refine ⟨get_never_sqlErrNoRows st id, ?_, ?_, ?_⟩
  · intro h
    obtain ⟨code, hc⟩ := insert_error_is_driverErr st t c e _ h
    exact absurd hc (by simp)
  · intro h
    obtain ⟨code, hc⟩ := insert_error_is_driverErr st t c e _ h
    exact absurd hc (by simp)
  · rintro code rfl
    exact ⟨rfl, rfl⟩

/-- C3 witness: the amended translation statement evaluated at a failing
backend with driver error 7. -/
theorem dao_error_translation_witness :
    SnippetModel.Get (Storage.failing 7) 1 = Except.error (GoError.driverErr 7) ∧
    SnippetModel.Insert (Storage.failing 7) "a" "b" "7" =
      Except.error (GoError.driverErr 7) :=
  (dao_error_translation (Storage.failing 7) 1 "a" "b" "7").2.2.2 7 rfl

/-- C1: Get returns a snippet exactly when a stored row with that id exists
whose expires timestamp is strictly after the current time; when no such row
exists (including an expired row with that id) it fails with ErrNoRecord and
never with the raw storage no-rows error; any other storage failure is
returned unmodified. -/
theorem get_live_row_exactly (rows : List Row) (now : Nat) (nextId id : Int) (code : Nat) :
    ((∃ s, SnippetModel.Get (Storage.healthy rows now nextId) id = Except.ok s) ↔
      ∃ r ∈ rows, r.id = id ∧ now < r.expires) ∧
    ((∀ r ∈ rows, ¬(r.id = id ∧ now < r.expires)) →
      SnippetModel.Get (Storage.healthy rows now nextId) id =
        Except.error GoError.errNoRecord) ∧
    (∀ st : Storage, SnippetModel.Get st id ≠ Except.error GoError.sqlErrNoRows) ∧
    SnippetModel.Get (Storage.failing code) id = Except.error (GoError.driverErr code) := by
  refine ⟨⟨?_, ?_⟩, ?_, fun st => get_never_sqlErrNoRows st id, rfl⟩
  · rintro ⟨s, hs⟩
    cases hf : rows.filter (getWhere now id) with
    | nil => simp [SnippetModel.Get, rowScan, hf] at hs
    | cons a t =>
      have ha : a ∈ rows.filter (getWhere now id) := by
        rw [hf]; exact List.mem_cons_self a t
      rw [List.mem_filter] at ha
      have hw := ha.2
      simp only [getWhere, Bool.and_eq_true, decide_eq_true_eq] at hw
      exact ⟨a, ha.1, hw.2, hw.1⟩
  · rintro ⟨r, hr, hid, hlt⟩
    cases hf : rows.filter (getWhere now id) with
    | nil =>
      exfalso
      have hmem : r ∈ rows.filter (getWhere now id) :=
        List.mem_filter.mpr ⟨hr, by simp [getWhere, hid, hlt]⟩
      rw [hf] at hmem
      exact absurd hmem (List.not_mem_nil r)
    | cons a t =>
      exact ⟨{ ID := a.id, Title := a.title, Content := a.content,
               Created := a.created, Expires := a.expires },
             by simp [SnippetModel.Get, rowScan, hf]⟩
  · intro hall
    cases hf : rows.filter (getWhere now id) with
    | nil => simp [SnippetModel.Get, rowScan, hf]
    | cons a t =>
      exfalso
      have ha : a ∈ rows.filter (getWhere now id) := by
        rw [hf]; exact List.mem_cons_self a t
      rw [List.mem_filter] at ha
      have hw := ha.2
      simp only [getWhere, Bool.and_eq_true, decide_eq_true_eq] at hw
      exact hall a ha.1 ⟨hw.2, hw.1⟩

/-- C1 witness: on a one-row table whose row is live at the current clock,
Get returns a snippet. -/
theorem get_live_row_exactly_witness :
    ∃ s, SnippetModel.Get (Storage.healthy [⟨1, "t", "c", 0, 100⟩] 50 2) 1 =
      Except.ok s :=
  (get_live_row_exactly [⟨1, "t", "c", 0, 100⟩] 50 2 1 0).1.mpr
    ⟨⟨1, "t", "c", 0, 100⟩, by simp, rfl, by decide⟩

/-- C2: inserting with expiry string "7" and immediately fetching the
returned id yields a snippet whose expires equals created plus exactly 7 days
and whose title and content equal the inserted inputs. The freshness
hypothesis states that the auto-increment id is not already present, which
the storage engine guarantees for its primary key column. -/
theorem get_of_filter_single (rows : List Row) (now : Nat) (nextId id : Int) (r : Row)
    (hf : rows.filter (getWhere now id) = [r]) :
    SnippetModel.Get (Storage.healthy rows now nextId) id =
      Except.ok { ID := r.id, Title := r.title, Content := r.content,
                  Created := r.created, Expires := r.expires } := by
  simp only [SnippetModel.Get, rowScan, hf, List.head?_cons]

theorem insert_get_roundtrip (rows : List Row) (now : Nat) (nextId : Int)
    (title content : String) (hfresh : ∀ r ∈ rows, r.id ≠ nextId) :
    ∃ st2 s,
      SnippetModel.Insert (Storage.healthy rows now nextId) title content "7" =
        Except.ok (nextId, st2) ∧
      SnippetModel.Get st2 nextId = Except.ok s ∧
      s.Title = title ∧ s.Content = content ∧
      s.Created = now ∧ s.Expires = s.Created + 7 * 86400 := by
  have h7 : mysqlIntervalDays "7" = some 7 := by decide
  have hw : getWhere now nextId
      ({ id := nextId, title := title, content := content,
         created := now, expires := now + 7 * 86400 } : Row) = true := by
    simp only [getWhere, Bool.and_eq_true, decide_eq_true_eq]
    exact ⟨by omega, trivial⟩
  have hfilter :
      (rows ++ [({ id := nextId, title := title, content := content,
                   created := now, expires := now + 7 * 86400 } : Row)]).filter
        (getWhere now nextId) =
      [({ id := nextId, title := title, content := content,
          created := now, expires := now + 7 * 86400 } : Row)] := by
    rw [List.filter_append]
    have h1 : rows.filter (getWhere now nextId) = [] := by
      rw [List.filter_eq_nil_iff]
      intro a ha
      simp [getWhere, hfresh a ha]
    have h2 : List.filter (getWhere now nextId)
        [({ id := nextId, title := title, content := content,
            created := now, expires := now + 7 * 86400 } : Row)] =
        [({ id := nextId, title := title, content := content,
            created := now, expires := now + 7 * 86400 } : Row)] := by
      simp [List.filter_cons, hw]
    rw [h1, h2, List.nil_append]
  refine ⟨Storage.healthy
      (rows ++ [({ id := nextId, title := title, content := content,
                   created := now, expires := now + 7 * 86400 } : Row)]) now (nextId + 1),
    { ID := nextId, Title := title, Content := content,
      Created := now, Expires := now + 7 * 86400 },
    ?_, ?_, rfl, rfl, rfl, rfl⟩
  · simp [SnippetModel.Insert, h7]
  · exact get_of_filter_single _ now (nextId + 1) nextId _ hfilter

/-- C2 witness: the round trip evaluated on an empty table at clock 0 with
next id 1. -/
theorem insert_get_roundtrip_witness :
    ∃ st2 s,
      SnippetModel.Insert (Storage.healthy [] 0 1) "my title" "my content" "7" =
        Except.ok (1, st2) ∧
      SnippetModel.Get st2 1 = Except.ok s ∧
      s.Title = "my title" ∧ s.Content = "my content" ∧
      s.Created = 0 ∧ s.Expires = s.Created + 7 * 86400 :=
  insert_get_roundtrip [] 0 1 "my title" "my content" (by simp)

/-- C4: showSnippet answers 404 without consulting the DAO whenever the id
query parameter is missing, non-numeric or below 1, for every storage state;
for a valid id, a DAO result of ErrNoRecord maps to 404 and any other DAO
error maps to 500. -/
theorem showSnippet_status_mapping (st : Storage) (r : Request) :
    ((Atoi r.queryId = none ∨ ∃ id, Atoi r.queryId = some id ∧ id < 1) →
      (showSnippet st r ResponseWriter.empty).1.status = some 404 ∧
      (showSnippet st r ResponseWriter.empty).2 = []) ∧
    (∀ id, Atoi r.queryId = some id → 1 ≤ id →
      (SnippetModel.Get st id = Except.error GoError.errNoRecord →
        (showSnippet st r ResponseWriter.empty).1.status = some 404) ∧
      (∀ e, SnippetModel.Get st id = Except.error e → e ≠ GoError.errNoRecord →
        (showSnippet st r ResponseWriter.empty).1.status = some 500)) := by
  constructor
  · rintro (hnone | ⟨id, hid, hlt⟩)
    · simp only [showSnippet, hnone]
      exact ⟨rfl, trivial⟩
    · simp only [showSnippet, hid, if_pos hlt]
      exact ⟨rfl, trivial⟩
  · intro id hid hge
    have hnlt : ¬ id < 1 := by omega
    constructor
    · intro hget
      simp only [showSnippet, hid, if_neg hnlt, hget, if_pos rfl]
      rfl
    · intro e hget hne
      simp only [showSnippet, hid, if_neg hnlt, hget, if_neg hne]
      rfl

/-- C4 witness: a non-numeric id on a failing backend answers 404 with no DAO
call. -/
theorem showSnippet_status_mapping_witness :
    (showSnippet (Storage.failing 3) ⟨"GET", "/snippet", "abc", ""⟩
      ResponseWriter.empty).1.status = some 404 ∧
    (showSnippet (Storage.failing 3) ⟨"GET", "/snippet", "abc", ""⟩
      ResponseWriter.empty).2 = [] :=
  (showSnippet_status_mapping (Storage.failing 3)
    ⟨"GET", "/snippet", "abc", ""⟩).1 (Or.inl (by decide))

/-- C5: on a non-POST method createSnippet answers 405 with the response
header Allow: POST, makes no Insert call, and leaves the storage state
untouched. -/
theorem createSnippet_method_not_allowed (st : Storage) (r : Request)
    (h : r.method ≠ "POST") :
    (createSnippet st r ResponseWriter.empty).1.status = some 405 ∧
    (createSnippet st r ResponseWriter.empty).1.getHeader "Allow" = some "POST" ∧
    (createSnippet st r ResponseWriter.empty).2.2 = [] ∧
    (createSnippet st r ResponseWriter.empty).2.1 = st := by
  have hc : createSnippet st r ResponseWriter.empty =
      (application.clientError (ResponseWriter.empty.setHeader "Allow" "POST") 405,
        st, []) := by
    simp only [createSnippet, if_pos h]
  rw [hc]
  exact ⟨rfl, rfl, rfl, rfl⟩

/-- C5 witness: a GET request to createSnippet on a failing backend. -/
theorem createSnippet_method_not_allowed_witness :
    (createSnippet (Storage.failing 0) ⟨"GET", "/snippet/create", "", ""⟩
      ResponseWriter.empty).1.status = some 405 ∧
    (createSnippet (Storage.failing 0) ⟨"GET", "/snippet/create", "", ""⟩
      ResponseWriter.empty).1.getHeader "Allow" = some "POST" ∧
    (createSnippet (Storage.failing 0) ⟨"GET", "/snippet/create", "", ""⟩
      ResponseWriter.empty).2.2 = [] ∧
    (createSnippet (Storage.failing 0) ⟨"GET", "/snippet/create", "", ""⟩
      ResponseWriter.empty).2.1 = Storage.failing 0 :=
  createSnippet_method_not_allowed (Storage.failing 0)
    ⟨"GET", "/snippet/create", "", ""⟩ (by decide)

/-- C6: on a POST request against a healthy backend, Insert succeeds with the
newly assigned id and createSnippet answers 303 with Location
/snippet?id=N for that positive id; when Insert fails the handler answers
500. -/
theorem createSnippet_post_redirect (rows : List Row) (now : Nat) (nextId : Int)
    (r : Request) (hm : r.method = "POST") (hpos : 1 ≤ nextId) (code : Nat) :
    (createSnippet (Storage.healthy rows now nextId) r ResponseWriter.empty).1.status =
      some 303 ∧
    (createSnippet (Storage.healthy rows now nextId) r
      ResponseWriter.empty).1.getHeader "Location" =
      some ("/snippet?id=" ++ toString nextId) ∧
    1 ≤ nextId ∧
    (createSnippet (Storage.failing code) r ResponseWriter.empty).1.status = some 500 := by
  have hnp : ¬ (r.method ≠ "POST") := by simp [hm]
  have h7 : mysqlIntervalDays "7" = some 7 := by decide
  have hins : SnippetModel.Insert (Storage.healthy rows now nextId) "O snail" haiku "7" =
      Except.ok (nextId,
        Storage.healthy
          (rows ++ [({ id := nextId, title := "O snail", content := haiku,
                       created := now, expires := now + 7 * 86400 } : Row)])
          now (nextId + 1)) := by
    simp [SnippetModel.Insert, h7]
  have hok : createSnippet (Storage.healthy rows now nextId) r ResponseWriter.empty =
      (httpRedirect ResponseWriter.empty ("/snippet?id=" ++ toString nextId) 303,
        Storage.healthy
          (rows ++ [({ id := nextId, title := "O snail", content := haiku,
                       created := now, expires := now + 7 * 86400 } : Row)])
          now (nextId + 1),
        [("O snail", haiku, "7")]) := by
    simp only [createSnippet, if_neg hnp, hins]
  have hfail : createSnippet (Storage.failing code) r ResponseWriter.empty =
      (application.serverError ResponseWriter.empty, Storage.failing code,
        [("O snail", haiku, "7")]) := by
    simp only [createSnippet, if_neg hnp]
    rfl
  rw [hok, hfail]
  exact ⟨rfl, rfl, hpos, rfl⟩

/-- C6 witness: a POST on an empty healthy table with next id 1. -/
theorem createSnippet_post_redirect_witness :
    (createSnippet (Storage.healthy [] 0 1) ⟨"POST", "/snippet/create", "", ""⟩
      ResponseWriter.empty).1.status = some 303 ∧
    (createSnippet (Storage.healthy [] 0 1) ⟨"POST", "/snippet/create", "", ""⟩
      ResponseWriter.empty).1.getHeader "Location" =
      some ("/snippet?id=" ++ toString (1 : Int)) ∧
    (1 : Int) ≤ 1 ∧
    (createSnippet (Storage.failing 9) ⟨"POST", "/snippet/create", "", ""⟩
      ResponseWriter.empty).1.status = some 500 :=
  createSnippet_post_redirect [] 0 1 ⟨"POST", "/snippet/create", "", ""⟩
    rfl (by decide) 9

/-- C9: every POST request makes exactly one Insert call with the fixed dummy
values, independent of the request payload, query string and storage state,
so any two POST requests insert identical values. -/
theorem createSnippet_fixed_insert_values (st : Storage) (r : Request)
    (hm : r.method = "POST") :
    (createSnippet st r ResponseWriter.empty).2.2 = [("O snail", haiku, "7")] ∧
    (∀ (st2 : Storage) (r2 : Request), r2.method = "POST" →
      (createSnippet st r ResponseWriter.empty).2.2 =
        (createSnippet st2 r2 ResponseWriter.empty).2.2) := by
  have key : ∀ (st0 : Storage) (r0 : Request), r0.method = "POST" →
      (createSnippet st0 r0 ResponseWriter.empty).2.2 = [("O snail", haiku, "7")] := by
    intro st0 r0 h0
    have hnp : ¬ (r0.method ≠ "POST") := by simp [h0]
    simp only [createSnippet, if_neg hnp]
    cases h : SnippetModel.Insert st0 "O snail" haiku "7" with
    | error e => rfl
    | ok p =>
      obtain ⟨i, s⟩ := p
      rfl
  exact ⟨key st r hm, fun st2 r2 h2 => by rw [key st r hm, key st2 r2 h2]⟩

/-- C9 witness: two different POST requests with different payloads against
different storage states record the same single Insert call. -/
theorem createSnippet_fixed_insert_values_witness :
    (createSnippet (Storage.failing 4) ⟨"POST", "/snippet/create", "9", "x=y"⟩
      ResponseWriter.empty).2.2 = [("O snail", haiku, "7")] ∧
    (∀ (st2 : Storage) (r2 : Request), r2.method = "POST" →
      (createSnippet (Storage.failing 4) ⟨"POST", "/snippet/create", "9", "x=y"⟩
        ResponseWriter.empty).2.2 =
        (createSnippet st2 r2 ResponseWriter.empty).2.2) :=
  createSnippet_fixed_insert_values (Storage.failing 4)
    ⟨"POST", "/snippet/create", "9", "x=y"⟩ rfl

/-- C10: the part_001 createSnippet variant is not behaviorally equivalent to
the part_000 variant or to the handlers.go one: on a non-POST method it emits
the 405 client error and then, because the return is commented out, falls
through and appends the body "Create a new snippet...", while the other two
variants stop right after the 405 response. -/
theorem createSnippet_part001_divergence (st : Storage) (r : Request)
    (h : r.method ≠ "POST") :
    createSnippet_part001 r ResponseWriter.empty =
      (application.clientError (ResponseWriter.empty.setHeader "Allow" "POST") 405).write
        "Create a new snippet..." ∧
    (createSnippet_part001 r ResponseWriter.empty).status = some 405 ∧
    (createSnippet_part001 r ResponseWriter.empty).body =
      (createSnippet st r ResponseWriter.empty).1.body ++ "Create a new snippet..." ∧
    createSnippet_part001 r ResponseWriter.empty ≠
      createSnippet_part000 r ResponseWriter.empty ∧
    createSnippet_part001 r ResponseWriter.empty ≠
      (createSnippet st r ResponseWriter.empty).1 := by
  have h1 : createSnippet_part001 r ResponseWriter.empty =
      (application.clientError (ResponseWriter.empty.setHeader "Allow" "POST") 405).write
        "Create a new snippet..." := by
    simp only [createSnippet_part001, if_pos h]
  have h0 : createSnippet_part000 r ResponseWriter.empty =
      (((ResponseWriter.empty.setHeader "Allow" "POST").writeHeader 405).write
        "Method Not Allowed") := by
    simp only [createSnippet_part000, if_pos h]
  have hc : createSnippet st r ResponseWriter.empty =
      (application.clientError (ResponseWriter.empty.setHeader "Allow" "POST") 405,
        st, []) := by
    simp only [createSnippet, if_pos h]
  have hc1 : (createSnippet st r ResponseWriter.empty).1 =
      application.clientError (ResponseWriter.empty.setHeader "Allow" "POST") 405 := by
    rw [hc]
  rw [h1, h0, hc1]
  refine ⟨?_, ?_, ?_, ?_, ?_⟩ <;> decide

/-- C10 witness: the divergence evaluated at a GET request on a failing
backend. -/
theorem createSnippet_part001_divergence_witness :
    createSnippet_part001 ⟨"GET", "/snippet/create", "", ""⟩ ResponseWriter.empty =
      (application.clientError (ResponseWriter.empty.setHeader "Allow" "POST") 405).write
        "Create a new snippet..." ∧
    (createSnippet_part001 ⟨"GET", "/snippet/create", "", ""⟩
      ResponseWriter.empty).status = some 405 ∧
    (createSnippet_part001 ⟨"GET", "/snippet/create", "", ""⟩ ResponseWriter.empty).body =
      (createSnippet (Storage.failing 0) ⟨"GET", "/snippet/create", "", ""⟩
        ResponseWriter.empty).1.body ++ "Create a new snippet..." ∧
    createSnippet_part001 ⟨"GET", "/snippet/create", "", ""⟩ ResponseWriter.empty ≠
      createSnippet_part000 ⟨"GET", "/snippet/create", "", ""⟩ ResponseWriter.empty ∧
    createSnippet_part001 ⟨"GET", "/snippet/create", "", ""⟩ ResponseWriter.empty ≠
      (createSnippet (Storage.failing 0) ⟨"GET", "/snippet/create", "", ""⟩
        ResponseWriter.empty).1 :=
  createSnippet_part001_divergence (Storage.failing 0)
    ⟨"GET", "/snippet/create", "", ""⟩ (by decide)

end Snippetbox
